import Mathlib

/-!
Shallow embedding of the access-control and admission-control subsystem of
the unstuck-backend repository (src/core/subscription.py, src/core/rate_limit.py,
src/core/auth.py, src/core/constants.py, src/database/models.py), together
with theorems settling the frozen claims about it.

Conventions:
- Python `datetime` values are embedded as a `Datetime` record of calendar
  components at second granularity (the code never reads microseconds in the
  paths modelled here); `datetime` subtraction and `timedelta.days` are
  embedded through a days-from-civil-date conversion and floored division.
- Python functions that raise `HTTPException` are embedded as functions
  returning `Option HttpError` (`some` = raised) or `Except HttpError _`.
- The long human-readable markdown strings interpolated into the `message`
  fields of error payloads are elided (replaced by a fixed placeholder);
  every structured value they interpolate (caps, tier, days until reset,
  reset date) also appears under its own key in the same payload, and those
  keys are embedded faithfully.
-/

/-- A JSON-like value, for the heterogeneous `detail` dictionaries the code
attaches to `HTTPException`s. -/
inductive JsonVal where
  | str : String → JsonVal
  | int : Int → JsonVal
  | bool : Bool → JsonVal
  | null : JsonVal
deriving DecidableEq

/-- An `HTTPException` with a structured (dict) detail, embedded as a status
code plus an association list of the dict entries in source order. -/
structure HttpError where
  status_code : Nat
  detail : List (String × JsonVal)
deriving DecidableEq

/-- Placeholder standing for the human-readable markdown prose of the error
messages (src/core/subscription.py interpolates into those messages only
values that the same payload also carries under structured keys). -/
def elidedMessage : String := "elided markdown message"

/-- SubscriptionTier from src/core/constants.py. -/
inductive SubscriptionTier where
  | FREE
  | COMMUNITY
deriving DecidableEq

/-- One entry of the SUBSCRIPTION_LIMITS table (src/core/constants.py):
the free entry has only max_total_requests, the community entry only
max_monthly_requests; both list the same restricted features. -/
structure TierConfig where
  max_total_requests : Option Int
  max_monthly_requests : Option Int
  restricted_features : List String
deriving DecidableEq

/-- SUBSCRIPTION_LIMITS from src/core/constants.py. -/
def SUBSCRIPTION_LIMITS : SubscriptionTier → TierConfig
  | SubscriptionTier.FREE => ⟨some 150, none, ["builds", "guides", "lore"]⟩
  | SubscriptionTier.COMMUNITY => ⟨none, some 300, ["builds", "guides", "lore"]⟩

/-- A civil date-time at second granularity, embedding Python `datetime`
values as used by the quota code. -/
structure Datetime where
  year : Int
  month : Int
  day : Int
  hour : Int
  minute : Int
  second : Int
deriving DecidableEq

/-- Gregorian leap-year test (as in Python `calendar.isleap`). -/
def isLeapYear (y : Int) : Bool :=
  y % 4 = 0 && (y % 100 ≠ 0 || y % 400 = 0)

/-- Number of days in a month, as returned by `calendar.monthrange(y, m)[1]`
for `m` in 1..12. -/
def daysInMonth (y m : Int) : Int :=
  if m = 2 then (if isLeapYear y then 29 else 28)
  else if m = 4 ∨ m = 6 ∨ m = 9 ∨ m = 11 then 30
  else 31

/-- Days from the civil epoch 1970-01-01 to the given Gregorian date
(standard days-from-civil computation); embeds the day arithmetic of
Python `datetime` subtraction. -/
def daysFromCivil (y m d : Int) : Int :=
  let y2 := if m ≤ 2 then y - 1 else y
  let era := Int.fdiv y2 400
  let yoe := y2 - era * 400
  let mp := (m + 9) % 12
  let doy := Int.fdiv (153 * mp + 2) 5 + d - 1
  let doe := yoe * 365 + Int.fdiv yoe 4 - Int.fdiv yoe 100 + doy
  era * 146097 + doe - 719468

/-- Seconds from the epoch for a `Datetime`. -/
def toSec (t : Datetime) : Int :=
  daysFromCivil t.year t.month t.day * 86400 + t.hour * 3600 + t.minute * 60 + t.second

/-- Embeds `(a - b).days` for Python datetimes `a`, `b`: the difference in seconds,
floor-divided by 86400 (`timedelta` normalizes so that `.days` is the floor). -/
def daysBetween (a b : Datetime) : Int :=
  Int.fdiv (toSec a - toSec b) 86400

/-- Zero-padded two-digit rendering of a component, as in `datetime.isoformat`. -/
def pad2 (n : Int) : String :=
  if n < 10 then "0" ++ toString n else toString n

/-- Zero-padded four-digit rendering of the year, as in `datetime.isoformat`. -/
def pad4 (n : Int) : String :=
  if n < 10 then "000" ++ toString n
  else if n < 100 then "00" ++ toString n
  else if n < 1000 then "0" ++ toString n
  else toString n

/-- Embeds `datetime.isoformat()` at second granularity. -/
def isoformat (t : Datetime) : String :=
  pad4 t.year ++ "-" ++ pad2 t.month ++ "-" ++ pad2 t.day ++ "T" ++
    pad2 t.hour ++ ":" ++ pad2 t.minute ++ ":" ++ pad2 t.second

/-- The quota-relevant fields of the User model (src/database/models.py):
subscription_tier (default "free"), total lifetime request count, monthly
request count, and the nullable date of the last monthly-counter reset. -/
structure User where
  subscription_tier : String
  total_requests : Int
  monthly_requests : Int
  request_count_reset_date : Option Datetime
deriving DecidableEq

/-- Embedding of _check_feature_access from src/core/subscription.py: looks up the tier
config (FREE when the tier string is "free", COMMUNITY otherwise) and raises
403 feature_access_denied when the feature is in its restricted_features. -/
def check_feature_access (user : User) (feature : String) : Option HttpError :=
  let tier := user.subscription_tier
  let tier_config :=
    SUBSCRIPTION_LIMITS
      (if tier = "free" then SubscriptionTier.FREE else SubscriptionTier.COMMUNITY)
  if feature ∈ tier_config.restricted_features then
    some ⟨403,
      [("error", JsonVal.str "feature_access_denied"),
       ("message", JsonVal.str elidedMessage),
       ("feature", JsonVal.str feature),
       ("current_tier", JsonVal.str tier),
       ("upgrade_required", JsonVal.bool true)]⟩
  else none

/-- Embedding of _check_request_limit from src/core/subscription.py: free tier raises 429
request_limit_exceeded when total_requests has reached the lifetime cap;
community tier, when the reset date is set, less than 30 days old and the
monthly count has reached the monthly cap, raises 429
monthly_request_limit_exceeded carrying days_until_reset; all other tiers
pass with no check at all. `now` embeds `datetime.utcnow()`. -/
def check_request_limit (user : User) (now : Datetime) : Option HttpError :=
  let tier := user.subscription_tier
  if tier = "free" then
    let max_requests := (SUBSCRIPTION_LIMITS SubscriptionTier.FREE).max_total_requests.getD 0
    if user.total_requests ≥ max_requests then
      some ⟨429,
        [("error", JsonVal.str "request_limit_exceeded"),
         ("message", JsonVal.str elidedMessage),
         ("current_requests", JsonVal.int user.total_requests),
         ("max_requests", JsonVal.int max_requests),
         ("tier", JsonVal.str tier),
         ("limit_type", JsonVal.str "lifetime"),
         ("upgrade_required", JsonVal.bool true)]⟩
    else none
  else if tier = "community" then
    let max_monthly := (SUBSCRIPTION_LIMITS SubscriptionTier.COMMUNITY).max_monthly_requests.getD 0
    match user.request_count_reset_date with
    | none => none
    | some reset_date =>
      let days_since_reset := daysBetween now reset_date
      if days_since_reset ≥ 30 then none
      else if user.monthly_requests ≥ max_monthly then
        some ⟨429,
          [("error", JsonVal.str "monthly_request_limit_exceeded"),
           ("message", JsonVal.str elidedMessage),
           ("current_requests", JsonVal.int user.monthly_requests),
           ("max_requests", JsonVal.int max_monthly),
           ("tier", JsonVal.str tier),
           ("limit_type", JsonVal.str "monthly"),
           ("days_until_reset", JsonVal.int (30 - days_since_reset)),
           ("reset_date", JsonVal.str (isoformat reset_date))]⟩
      else none
  else none

/-- The calendar-month rollover computed inline in get_request_limit_info
(src/core/subscription.py, community branch): month + 1 with year carry,
day clamped to the target month via `calendar.monthrange`, time-of-day
components preserved (the reconstruction drops microseconds). -/
def addOneMonthClamped (d : Datetime) : Datetime :=
  let month0 := d.month + 1
  let year := if month0 > 12 then d.year + 1 else d.year
  let month := if month0 > 12 then 1 else month0
  let max_day := daysInMonth year month
  let day := min d.day max_day
  ⟨year, month, day, d.hour, d.minute, d.second⟩

/-- The dict returned by get_request_limit_info. -/
structure LimitInfo where
  remaining_requests : Int
  max_requests : Int
  limit_type : String
  reset_date : Option String
deriving DecidableEq

/-- get_request_limit_info from src/core/subscription.py: a read-only
projection of the usage record (it takes the record and returns a dict,
mutating nothing). `now` embeds `datetime.utcnow()`. -/
def get_request_limit_info (user : User) (now : Datetime) : LimitInfo :=
  let tier := user.subscription_tier
  if tier = "free" then
    let max_requests := (SUBSCRIPTION_LIMITS SubscriptionTier.FREE).max_total_requests.getD 0
    ⟨max 0 (max_requests - user.total_requests), max_requests, "lifetime", none⟩
  else if tier = "community" then
    let max_monthly := (SUBSCRIPTION_LIMITS SubscriptionTier.COMMUNITY).max_monthly_requests.getD 0
    match user.request_count_reset_date with
    | none => ⟨max_monthly, max_monthly, "monthly", none⟩
    | some reset_date =>
      let days_since_reset := daysBetween now reset_date
      if days_since_reset ≥ 30 then
        ⟨max_monthly, max_monthly, "monthly", some (isoformat now)⟩
      else
        let next_reset := addOneMonthClamped reset_date
        ⟨max 0 (max_monthly - user.monthly_requests), max_monthly, "monthly",
          some (isoformat next_reset)⟩
  else
    ⟨999999, 999999, "unlimited", none⟩

/-- Modelled from the spec: `DatabaseService.increment_user_requests` is
called by check_feature_access_and_limits (src/core/subscription.py) but its
definition is absent from src/database/service.py. Following the spec text
for incrementUsage(record): persist lifetime_count += 1; for the elevated
(community) tier, if the 30-day eligibility test from checkRequestLimit
holds, reset monthly_count to 1 and set reset_date = now, otherwise
monthly_count += 1; if reset_date was null, set it to now on this first
increment. -/
def increment_user_requests (user : User) (now : Datetime) : User :=
  let user1 := { user with total_requests := user.total_requests + 1 }
  if user1.subscription_tier = "community" then
    match user1.request_count_reset_date with
    | none =>
      { user1 with monthly_requests := user1.monthly_requests + 1,
                   request_count_reset_date := some now }
    | some reset_date =>
      if daysBetween now reset_date ≥ 30 then
        { user1 with monthly_requests := 1,
                     request_count_reset_date := some now }
      else
        { user1 with monthly_requests := user1.monthly_requests + 1 }
  else user1

/-- check_feature_access_and_limits from src/core/subscription.py, with the
usage record passed in place of the database read: check feature access,
then the request limit, and only when both pass increment the counters;
a raised HTTPException is `Except.error` and aborts before the increment. -/
def check_feature_access_and_limits (user : User) (feature : String) (now : Datetime) :
    Except HttpError User :=
  match check_feature_access user feature with
  | some e => Except.error e
  | none =>
    match check_request_limit user now with
    | some e => Except.error e
    | none => Except.ok (increment_user_requests user now)

/-- The result triple of InMemoryRateLimitService.is_rate_limited
(src/core/rate_limit.py): (is_limited, current_count, time_until_reset). -/
structure RateLimitResult where
  is_limited : Bool
  current_count : Nat
  time_until_reset : Int
deriving DecidableEq

/-- The front-eviction loop of is_rate_limited:
`while requests and requests[0] <= cutoff_time: requests.popleft()` —
pops from the front while the head is at or before the cutoff, stopping at
the first later entry. -/
def trimWindow (cutoff : Int) : List Int → List Int
  | [] => []
  | t :: rest => if t ≤ cutoff then trimWindow cutoff rest else t :: rest

/-- is_rate_limited from src/core/rate_limit.py, with the stored deque for
the key passed in and returned: trim entries at or before `now - window`;
if the remaining count reaches the limit, report limited with
`max(int(window - (now - oldest)) + 1, 0)` seconds until reset (or `window`
when the trimmed deque is empty); otherwise append `now` and report the
updated count. Timestamps are embedded as integer seconds, on which the
`int(...)` truncation in the source is the identity. -/
def is_rate_limited (reqs : List Int) (limit : Nat) (window now : Int) :
    RateLimitResult × List Int :=
  let cutoff := now - window
  let kept := trimWindow cutoff reqs
  let current_count := kept.length
  if current_count ≥ limit then
    match kept with
    | oldest :: _ =>
      (⟨true, current_count, max (window - (now - oldest) + 1) 0⟩, kept)
    | [] => (⟨true, current_count, window⟩, kept)
  else
    (⟨false, current_count + 1, 0⟩, kept ++ [now])

/-- The eviction step as the specification words it: drop only the
timestamps strictly older than `now - window` (an entry exactly at the
cutoff is kept). Used to compare the claimed behaviour with the code. -/
def specTrimWindow (cutoff : Int) : List Int → List Int
  | [] => []
  | t :: rest => if t < cutoff then specTrimWindow cutoff rest else t :: rest

/-- The sliding-window check as the specification words it: identical to
`is_rate_limited` except that the eviction keeps entries exactly at the
cutoff. -/
def spec_sliding_window (reqs : List Int) (limit : Nat) (window now : Int) :
    RateLimitResult × List Int :=
  let cutoff := now - window
  let kept := specTrimWindow cutoff reqs
  let current_count := kept.length
  if current_count ≥ limit then
    match kept with
    | oldest :: _ =>
      (⟨true, current_count, max (window - (now - oldest) + 1) 0⟩, kept)
    | [] => (⟨true, current_count, window⟩, kept)
  else
    (⟨false, current_count + 1, 0⟩, kept ++ [now])

/-- An AuthError (schemas/auth.py) as raised by src/core/auth.py. -/
structure AuthError where
  error : String
  description : String
  status_code : Nat
deriving DecidableEq

/-- One key of the JWKS document, with the fields src/core/auth.py reads. -/
structure Jwk where
  kid : String
  kty : String
  use : String
  n : String
  e : String
deriving DecidableEq

/-- The JWKS document: `jwks.get("keys", [])`. -/
structure Jwks where
  keys : List Jwk
deriving DecidableEq

/-- The RSA key dict assembled by get_rsa_key. -/
structure RsaKey where
  kty : String
  kid : String
  use : String
  n : String
  e : String
deriving DecidableEq

/-- The decoded JWT header, with the one field get_rsa_key reads:
`kid`, absent when the header carries no key identifier. -/
structure TokenHeader where
  kid : Option String
deriving DecidableEq

/-- get_rsa_key from src/core/auth.py: fail invalid_header when the header
has no kid; otherwise scan the key set for the first key with a matching
kid (the loop breaks at the first match) and fail invalid_header when none
matches. -/
def get_rsa_key (token_header : TokenHeader) (jwks : Jwks) : Except AuthError RsaKey :=
  match token_header.kid with
  | none =>
    Except.error ⟨"invalid_header", "Authorization malformed: missing kid", 401⟩
  | some kid =>
    match jwks.keys.find? (fun k => k.kid == kid) with
    | some k => Except.ok ⟨k.kty, k.kid, k.use, k.n, k.e⟩
    | none =>
      Except.error ⟨"invalid_header", "Unable to find appropriate key", 401⟩

/-- Outcome of `jose.jwt.decode` (signature / audience / issuer / expiry
verification), abstracted as an oracle: the library call itself is external
to the repository. -/
inductive DecodeOutcome (α : Type) where
  | ok : α → DecodeOutcome α
  | expiredSignature
  | invalidAudience
  | invalidIssuer
  | invalidSignature
  | invalidToken

/-- verify_token from src/core/auth.py: `header` is the result of
`jwt.get_unverified_header` (`none` embeds a JWTError there), `jwks` the
(possibly cached) key set obtained from get_jwks, and `decode` the
`jwt.decode` verification oracle, invoked only with the key get_rsa_key
selected. Each failure maps to its AuthError exactly as in the source; the
final payload-to-User construction is represented by the decoded value. -/
def verify_token {α : Type} (header : Option TokenHeader) (jwks : Jwks)
    (decode : RsaKey → DecodeOutcome α) : Except AuthError α :=
  match header with
  | none =>
    Except.error
      ⟨"invalid_header", "Invalid header: Use an RS256 signed JWT Access Token", 401⟩
  | some h =>
    match get_rsa_key h jwks with
    | Except.error e => Except.error e
    | Except.ok rsa_key =>
      match decode rsa_key with
      | DecodeOutcome.ok payload => Except.ok payload
      | DecodeOutcome.expiredSignature =>
        Except.error ⟨"token_expired", "Token has expired", 401⟩
      | DecodeOutcome.invalidAudience =>
        Except.error ⟨"invalid_audience", "Invalid audience", 401⟩
      | DecodeOutcome.invalidIssuer =>
        Except.error ⟨"invalid_issuer", "Invalid issuer", 401⟩
      | DecodeOutcome.invalidSignature =>
        Except.error ⟨"invalid_signature", "Invalid signature", 401⟩
      | DecodeOutcome.invalidToken =>
        Except.error ⟨"invalid_token", "Invalid token", 401⟩

/-- An `HTTPException` whose detail is a plain string, as raised by
get_jwks on a fetch failure. -/
structure HttpStrError where
  status_code : Nat
  detail : String
deriving DecidableEq

/-- The JWKS cache state of Auth0JWTBearer (src/core/auth.py):
`_jwks_cache` (`none` embeds the initial empty dict — a fetched Auth0 JWKS
document is a nonempty dict, hence truthy) and `_cache_expiry`. -/
structure JwksCache where
  jwks_cache : Option Jwks
  cache_expiry : Int
deriving DecidableEq

/-- The fetch-and-cache block of get_jwks (the `try` body and its handler):
on a successful network response, store the document and set the expiry one
hour past the current time; on an `httpx.HTTPError` (`fetched = none`),
raise 503 leaving the cache untouched. The underlying network error text
interpolated into the detail is elided. -/
def get_jwks_fetch (st : JwksCache) (current_time : Int) (fetched : Option Jwks) :
    Except HttpStrError Jwks × JwksCache :=
  match fetched with
  | some jwks => (Except.ok jwks, ⟨some jwks, current_time + 3600⟩)
  | none => (Except.error ⟨503, "Unable to fetch JWKS"⟩, st)

/-- get_jwks from src/core/auth.py: serve the cached document while
`current_time < cache_expiry`; otherwise perform the (single) fetch.
`fetched` is the outcome of the one network request this call may make:
no retry exists in the source. -/
def get_jwks (st : JwksCache) (current_time : Int) (fetched : Option Jwks) :
    Except HttpStrError Jwks × JwksCache :=
  match st.jwks_cache with
  | some cached =>
    if current_time < st.cache_expiry then (Except.ok cached, st)
    else get_jwks_fetch st current_time fetched
  | none => get_jwks_fetch st current_time fetched

/-- A sample instant used by concrete witnesses: 2026-10-12T00:00:00. -/
def sampleNow : Datetime := ⟨2026, 10, 12, 0, 0, 0⟩

/-- A sample reset date five days before `sampleNow`: 2026-10-07T00:00:00. -/
def sampleReset : Datetime := ⟨2026, 10, 7, 0, 0, 0⟩

/-- A sample reset date at a month end: 2026-01-31T08:30:00. -/
def janReset : Datetime := ⟨2026, 1, 31, 8, 30, 0⟩

/-- A sample instant fourteen days after `janReset`: 2026-02-15T00:00:00. -/
def febNow : Datetime := ⟨2026, 2, 15, 0, 0, 0⟩

theorem trimWindow_eq_filter (cutoff : Int) (l : List Int)
    (hs : List.Sorted (· ≤ ·) l) :
    trimWindow cutoff l = l.filter (fun t => cutoff < t) := by
  induction l with
  | nil => rfl
  | cons t rest ih =>
    rw [List.sorted_cons] at hs
    by_cases h : t ≤ cutoff
    · simp only [trimWindow, if_pos h, List.filter_cons, ih hs.2]
      simp [not_lt.mpr h]
    · simp only [trimWindow, if_neg h, List.filter_cons]
      have hlt : cutoff < t := not_le.mp h
      have hall : List.filter (fun x => decide (cutoff < x)) rest = rest :=
        List.filter_eq_self.mpr fun a ha =>
          decide_eq_true (lt_of_lt_of_le hlt (hs.1 a ha))
      simp [hlt, hall]

theorem is_rate_limited_snd (reqs : List Int) (limit : Nat) (window now : Int) :
    (is_rate_limited reqs limit window now).2 =
      if (trimWindow (now - window) reqs).length ≥ limit
      then trimWindow (now - window) reqs
      else trimWindow (now - window) reqs ++ [now] := by
  simp only [is_rate_limited]
  by_cases hc : (trimWindow (now - window) reqs).length ≥ limit
  · rw [if_pos hc, if_pos hc]
    cases htr : trimWindow (now - window) reqs with
    | nil => rfl
    | cons o tl => rfl
  · rw [if_neg hc, if_neg hc]

theorem is_rate_limited_fst_limited (reqs : List Int) (limit : Nat) (window now : Int) :
    (is_rate_limited reqs limit window now).1.is_limited = true ↔
      (trimWindow (now - window) reqs).length ≥ limit := by
  simp only [is_rate_limited]
  by_cases hc : (trimWindow (now - window) reqs).length ≥ limit
  · rw [if_pos hc]
    cases htr : trimWindow (now - window) reqs with
    | nil =>
      rw [htr] at hc
      simpa using hc
    | cons o tl =>
      rw [htr] at hc
      simpa using hc
  · rw [if_neg hc]
    simpa using hc

/-- C2 (amended): on a call with a chronologically ordered stored window,
the limiter drops the timestamps at or before `now - window` (the code
evicts entries exactly at the cutoff too, which the original claim missed);
if at least `limit` timestamps remain it reports limited with the remaining
count, the kept window unchanged, and retry seconds
`max (window - (now - oldest) + 1) 0`; otherwise it appends `now` and
reports not limited with the updated count. In particular, with limit 5 and
window 60, five calls within 60 seconds yield counts 1..5 and a sixth is
limited with positive retry seconds. -/
theorem c2_sliding_window_behaviour (reqs : List Int) (limit : Nat) (window now : Int)
    (hs : List.Sorted (· ≤ ·) reqs) (hl : 1 ≤ limit) :
    (limit ≤ (reqs.filter (fun t => now - window < t)).length →
       ∃ oldest tl, reqs.filter (fun t => now - window < t) = oldest :: tl ∧
         is_rate_limited reqs limit window now =
           (⟨true, (reqs.filter (fun t => now - window < t)).length,
             max (window - (now - oldest) + 1) 0⟩,
            reqs.filter (fun t => now - window < t))) ∧
    ((reqs.filter (fun t => now - window < t)).length < limit →
       is_rate_limited reqs limit window now =
         (⟨false, (reqs.filter (fun t => now - window < t)).length + 1, 0⟩,
          reqs.filter (fun t => now - window < t) ++ [now])) ∧
    (is_rate_limited [] 5 60 0 = (⟨false, 1, 0⟩, [0]) ∧
     is_rate_limited [0] 5 60 10 = (⟨false, 2, 0⟩, [0, 10]) ∧
     is_rate_limited [0, 10] 5 60 20 = (⟨false, 3, 0⟩, [0, 10, 20]) ∧
     is_rate_limited [0, 10, 20] 5 60 30 = (⟨false, 4, 0⟩, [0, 10, 20, 30]) ∧
     is_rate_limited [0, 10, 20, 30] 5 60 40 = (⟨false, 5, 0⟩, [0, 10, 20, 30, 40]) ∧
     (is_rate_limited [0, 10, 20, 30, 40] 5 60 50).1 = ⟨true, 5, 11⟩ ∧
     (0 : Int) < (is_rate_limited [0, 10, 20, 30, 40] 5 60 50).1.time_until_reset) := by
  have hk := trimWindow_eq_filter (now - window) reqs hs
  refine ⟨?_, ?_, by decide⟩
  · intro hlen
    obtain ⟨oldest, tl, hcons⟩ :
        ∃ o tl, reqs.filter (fun t => now - window < t) = o :: tl := by
      cases hfe : reqs.filter (fun t => now - window < t) with
      | nil =>
        rw [hfe] at hlen
        simp at hlen
        omega
      | cons o tl => exact ⟨o, tl, rfl⟩
    refine ⟨oldest, tl, hcons, ?_⟩
    simp only [is_rate_limited]
    rw [hk, hcons]
    rw [hcons] at hlen
    rw [if_pos hlen]
  · intro hlen
    simp only [is_rate_limited]
    rw [hk]
    rw [if_neg (not_le.mpr hlen)]

/-- C2 counterexample: with the stored timestamp exactly at the cutoff
(`now - window = 40`), the code evicts it and admits the call, while the
claimed rule (drop only strictly older entries) would keep it and report
the call limited. -/
theorem c2_counterexample :
    is_rate_limited [40] 1 60 100 = (⟨false, 1, 0⟩, [100]) ∧
    spec_sliding_window [40] 1 60 100 = (⟨true, 1, 1⟩, [40]) ∧
    is_rate_limited [40] 1 60 100 ≠ spec_sliding_window [40] 1 60 100 := by
  decide

/-- Witness for c2_sliding_window_behaviour at a concrete input. -/
theorem c2_witness : is_rate_limited [50] 2 60 70 = (⟨false, 2, 0⟩, [50, 70]) := by
  have h := (c2_sliding_window_behaviour [50] 2 60 70 (by decide) (by decide)).2.1 (by decide)
  exact h.trans (by decide)

/-- C8: limiter window-size invariant. For any call whose stored window is
chronologically ordered, holds at most `limit` entries (as every reachable
stored window does, starting from the empty deque) and contains no entry
later than `now`: after the call the stored window again holds at most
`limit` timestamps, all inside the trailing window `(now - window, now]`;
and a limited call stores exactly the trimmed window — it appends nothing,
so the rejected timestamp `now` is never recorded (it is absent whenever
all prior entries are strictly earlier). -/
theorem c8_window_size_invariant (reqs : List Int) (limit : Nat) (window now : Int)
    (hs : List.Sorted (· ≤ ·) reqs) (hlen : reqs.length ≤ limit)
    (hub : ∀ t ∈ reqs, t ≤ now) (hw : 1 ≤ window) :
    (is_rate_limited reqs limit window now).2.length ≤ limit ∧
    (∀ t ∈ (is_rate_limited reqs limit window now).2, now - window < t ∧ t ≤ now) ∧
    ((is_rate_limited reqs limit window now).1.is_limited = true →
       (is_rate_limited reqs limit window now).2 = trimWindow (now - window) reqs ∧
       ((∀ t ∈ reqs, t < now) → now ∉ (is_rate_limited reqs limit window now).2)) := by
  have hk := trimWindow_eq_filter (now - window) reqs hs
  have hmemtrim : ∀ t ∈ trimWindow (now - window) reqs, now - window < t ∧ t ∈ reqs := by
    intro t ht
    rw [hk, List.mem_filter] at ht
    exact ⟨by simpa using ht.2, ht.1⟩
  have hlentrim : (trimWindow (now - window) reqs).length ≤ reqs.length := by
    rw [hk]
    exact List.length_filter_le _ _
  refine ⟨?_, ?_, ?_⟩
  · rw [is_rate_limited_snd]
    by_cases hc : (trimWindow (now - window) reqs).length ≥ limit
    · rw [if_pos hc]
      exact le_trans hlentrim hlen
    · rw [if_neg hc]
      rw [List.length_append]
      simp only [List.length_singleton]
      omega
  · intro t ht
    rw [is_rate_limited_snd] at ht
    by_cases hc : (trimWindow (now - window) reqs).length ≥ limit
    · rw [if_pos hc] at ht
      obtain ⟨h1, h2⟩ := hmemtrim t ht
      exact ⟨h1, hub t h2⟩
    · rw [if_neg hc] at ht
      rcases List.mem_append.mp ht with hmem | hmem
      · obtain ⟨h1, h2⟩ := hmemtrim t hmem
        exact ⟨h1, hub t h2⟩
      · rw [List.mem_singleton] at hmem
        subst hmem
        exact ⟨by omega, le_refl _⟩
  · intro hlim
    have hc : (trimWindow (now - window) reqs).length ≥ limit :=
      (is_rate_limited_fst_limited reqs limit window now).mp hlim
    constructor
    · rw [is_rate_limited_snd, if_pos hc]
    · intro hstrict hmem
      rw [is_rate_limited_snd, if_pos hc] at hmem
      obtain ⟨-, hmem2⟩ := hmemtrim now hmem
      exact absurd (hstrict now hmem2) (lt_irrefl now)

/-- Witness for c8_window_size_invariant at a concrete input. -/
theorem c8_witness :
    (is_rate_limited [10, 20] 2 60 30).2.length ≤ 2 ∧
    (∀ t ∈ (is_rate_limited [10, 20] 2 60 30).2, (30 : Int) - 60 < t ∧ t ≤ 30) := by
  have h := c8_window_size_invariant [10, 20] 2 60 30 (by decide) (by decide)
    (by decide) (by decide)
  exact ⟨h.1, h.2.1⟩

/-- C5: for a record of either tier and any feature in the restricted-feature
set of the tier, check_feature_access raises 403
feature_access_denied carrying the feature name and the current tier; the
denial reads no counter, so it is identical for every value of the usage
counters (in particular with maximum remaining quota). -/
theorem c5_feature_access_denied (user : User) (feature : String)
    (htier : user.subscription_tier = "free" ∨ user.subscription_tier = "community")
    (hf : feature ∈ (SUBSCRIPTION_LIMITS
        (if user.subscription_tier = "free" then SubscriptionTier.FREE
         else SubscriptionTier.COMMUNITY)).restricted_features) :
    check_feature_access user feature =
      some ⟨403,
        [("error", JsonVal.str "feature_access_denied"),
         ("message", JsonVal.str elidedMessage),
         ("feature", JsonVal.str feature),
         ("current_tier", JsonVal.str user.subscription_tier),
         ("upgrade_required", JsonVal.bool true)]⟩ ∧
    (∀ t m r, check_feature_access ⟨user.subscription_tier, t, m, r⟩ feature =
       check_feature_access user feature) := by
  constructor
  · simp only [check_feature_access]
    rw [if_pos hf]
  · intro t m r
    rfl

/-- Witness for c5_feature_access_denied: a free-tier record with zero used
requests (maximum remaining quota) is still denied the restricted feature. -/
theorem c5_witness :
    check_feature_access ⟨"free", 0, 0, none⟩ "builds" =
      some ⟨403,
        [("error", JsonVal.str "feature_access_denied"),
         ("message", JsonVal.str elidedMessage),
         ("feature", JsonVal.str "builds"),
         ("current_tier", JsonVal.str "free"),
         ("upgrade_required", JsonVal.bool true)]⟩ := by
  exact (c5_feature_access_denied ⟨"free", 0, 0, none⟩ "builds"
    (Or.inl rfl) (by decide)).1

/-- C4 (amended): a free-tier record is denied by check_request_limit
exactly when its lifetime count has reached the cap of 150; the denial is a
429 request_limit_exceeded whose structured detail reports the current/used
count (current_requests) and the cap (max_requests) — no separate remaining
value is included (remaining is zero by the failure condition); a record
with count = cap - 1 is admitted. -/
theorem c4_free_tier_lifetime_limit (user : User) (now : Datetime)
    (ht : user.subscription_tier = "free") :
    ((check_request_limit user now).isSome ↔ 150 ≤ user.total_requests) ∧
    (150 ≤ user.total_requests →
       check_request_limit user now =
         some ⟨429,
           [("error", JsonVal.str "request_limit_exceeded"),
            ("message", JsonVal.str elidedMessage),
            ("current_requests", JsonVal.int user.total_requests),
            ("max_requests", JsonVal.int 150),
            ("tier", JsonVal.str "free"),
            ("limit_type", JsonVal.str "lifetime"),
            ("upgrade_required", JsonVal.bool true)]⟩) ∧
    check_request_limit ⟨"free", 149, user.monthly_requests,
      user.request_count_reset_date⟩ now = none := by
  have hcap : (SUBSCRIPTION_LIMITS SubscriptionTier.FREE).max_total_requests.getD 0 =
      (150 : Int) := rfl
  refine ⟨?_, ?_, by simp [check_request_limit, hcap]⟩
  · simp only [check_request_limit, ht]
    rw [if_pos trivial, hcap]
    by_cases hge : user.total_requests ≥ (150 : Int)
    · rw [if_pos hge]
      simpa using hge
    · rw [if_neg hge]
      simpa using hge
  · intro hge
    simp only [check_request_limit, ht]
    rw [if_pos trivial, hcap, if_pos (show user.total_requests ≥ (150 : Int) from hge)]

/-- C4 counterexample: at the concrete denied record (free tier, count 150)
the structured detail of the denial carries keys error, message,
current_requests, max_requests, tier, limit_type and upgrade_required only:
no key reports a remaining value, contrary to the claim that the failure
message reports current/used, remaining and cap. -/
theorem c4_counterexample :
    check_request_limit ⟨"free", 150, 0, none⟩ sampleNow =
      some ⟨429,
        [("error", JsonVal.str "request_limit_exceeded"),
         ("message", JsonVal.str elidedMessage),
         ("current_requests", JsonVal.int 150),
         ("max_requests", JsonVal.int 150),
         ("tier", JsonVal.str "free"),
         ("limit_type", JsonVal.str "lifetime"),
         ("upgrade_required", JsonVal.bool true)]⟩ ∧
    (check_request_limit ⟨"free", 150, 0, none⟩ sampleNow).map
        (fun e => (List.lookup "remaining" e.detail,
                   List.lookup "remaining_requests" e.detail)) =
      some (none, none) := by
  decide

/-- Witness for c4_free_tier_lifetime_limit at a concrete denied record. -/
theorem c4_witness :
    check_request_limit ⟨"free", 150, 3, none⟩ sampleNow =
      some ⟨429,
        [("error", JsonVal.str "request_limit_exceeded"),
         ("message", JsonVal.str elidedMessage),
         ("current_requests", JsonVal.int 150),
         ("max_requests", JsonVal.int 150),
         ("tier", JsonVal.str "free"),
         ("limit_type", JsonVal.str "lifetime"),
         ("upgrade_required", JsonVal.bool true)]⟩ := by
  have h := (c4_free_tier_lifetime_limit ⟨"free", 150, 3, none⟩ sampleNow rfl).2.1
    (by decide)
  exact h

/-- C3: for a community-tier record, check_request_limit never raises when
the reset date is null, never raises when the reset date is at least 30
days old regardless of the monthly count, and otherwise raises 429
monthly_request_limit_exceeded exactly when the monthly count has reached
the cap of 300, reporting days_until_reset = 30 - daysSinceReset. -/
theorem c3_community_monthly_limit (user : User) (now rd : Datetime)
    (ht : user.subscription_tier = "community") :
    (user.request_count_reset_date = none → check_request_limit user now = none) ∧
    (user.request_count_reset_date = some rd → 30 ≤ daysBetween now rd →
       check_request_limit user now = none) ∧
    (user.request_count_reset_date = some rd → daysBetween now rd < 30 →
       ((check_request_limit user now = none) ↔ user.monthly_requests < 300) ∧
       (300 ≤ user.monthly_requests →
          check_request_limit user now =
            some ⟨429,
              [("error", JsonVal.str "monthly_request_limit_exceeded"),
               ("message", JsonVal.str elidedMessage),
               ("current_requests", JsonVal.int user.monthly_requests),
               ("max_requests", JsonVal.int 300),
               ("tier", JsonVal.str "community"),
               ("limit_type", JsonVal.str "monthly"),
               ("days_until_reset", JsonVal.int (30 - daysBetween now rd)),
               ("reset_date", JsonVal.str (isoformat rd))]⟩)) := by
  have hcap : (SUBSCRIPTION_LIMITS SubscriptionTier.COMMUNITY).max_monthly_requests.getD 0 =
      (300 : Int) := rfl
  have hnf : ¬ (("community" : String) = "free") := by decide
  refine ⟨?_, ?_, ?_⟩
  · intro hn
    simp only [check_request_limit, ht, hn]
    rw [if_neg hnf, if_pos trivial]
  · intro hr hge
    simp only [check_request_limit, ht, hr]
    rw [if_neg hnf, if_pos trivial]
    rw [if_pos (show daysBetween now rd ≥ 30 from hge)]
  · intro hr hlt
    constructor
    · simp only [check_request_limit, ht, hr]
      rw [if_neg hnf, if_pos trivial, if_neg (not_le.mpr hlt), hcap]
      by_cases hm : user.monthly_requests ≥ (300 : Int)
      · rw [if_pos hm]
        simp [not_lt.mpr hm]
      · rw [if_neg hm]
        simp [not_le.mp hm]
    · intro hm
      simp only [check_request_limit, ht, hr]
      rw [if_neg hnf, if_pos trivial, if_neg (not_le.mpr hlt), hcap,
        if_pos (show user.monthly_requests ≥ (300 : Int) from hm)]

/-- Witness for c3_community_monthly_limit: a community record whose reset
date is five days old and whose monthly count equals the cap is denied with
days_until_reset = 25. -/
theorem c3_witness :
    (check_request_limit ⟨"community", 42, 300, some sampleReset⟩ sampleNow).map
        (fun e => (e.status_code, List.lookup "error" e.detail,
                   List.lookup "days_until_reset" e.detail)) =
      some (429, some (JsonVal.str "monthly_request_limit_exceeded"),
        some (JsonVal.int 25)) := by
  have h := ((c3_community_monthly_limit ⟨"community", 42, 300, some sampleReset⟩
      sampleNow sampleReset rfl).2.2 rfl (by decide)).2 (by decide)
  rw [h]
  decide

/-- C9: for a community-tier record with a reset date set and less than 30
days old, the read-only projection get_request_limit_info reports remaining
= max(0, 300 - monthly count), the cap 300, limit type monthly, and a reset
date equal to the stored reset date advanced by one calendar month with the
day clamped to the target month — a computation that never consults the
fixed-30-day eligibility test; the function takes the record and returns
only this projection, mutating nothing. -/
theorem c9_quota_info_projection (user : User) (now rd : Datetime)
    (ht : user.subscription_tier = "community")
    (hr : user.request_count_reset_date = some rd)
    (hd : daysBetween now rd < 30) :
    get_request_limit_info user now =
      ⟨max 0 (300 - user.monthly_requests), 300, "monthly",
       some (isoformat (addOneMonthClamped rd))⟩ := by
  have hcap : (SUBSCRIPTION_LIMITS SubscriptionTier.COMMUNITY).max_monthly_requests.getD 0 =
      (300 : Int) := rfl
  have hnf : ¬ (("community" : String) = "free") := by decide
  simp only [get_request_limit_info, ht, hr]
  rw [if_neg hnf, if_pos trivial, if_neg (not_le.mpr hd), hcap]

/-- Witness for c9_quota_info_projection: resetting from 2026-01-31T08:30:00
rolls over to 2026-02-28T08:30:00 (day clamped to February), with
remaining = 300 - 120 = 180. -/
theorem c9_witness :
    get_request_limit_info ⟨"community", 5, 120, some janReset⟩ febNow =
      ⟨180, 300, "monthly", some "2026-02-28T08:30:00"⟩ := by
  have h := c9_quota_info_projection ⟨"community", 5, 120, some janReset⟩ febNow janReset
    rfl rfl (by decide)
  exact h.trans (by decide)

/-- C10: for a record whose tier string is neither "free" nor "community",
check_request_limit never raises, get_request_limit_info reports the
unlimited type with 999999 remaining, and check_feature_access still denies
the restricted features by falling back to the restricted-feature set of the
community tier. -/
theorem c10_unknown_tier_behaviour (user : User) (now : Datetime) (feature : String)
    (h1 : user.subscription_tier ≠ "free") (h2 : user.subscription_tier ≠ "community") :
    check_request_limit user now = none ∧
    get_request_limit_info user now = ⟨999999, 999999, "unlimited", none⟩ ∧
    (feature ∈ (SUBSCRIPTION_LIMITS SubscriptionTier.COMMUNITY).restricted_features →
       check_feature_access user feature =
         some ⟨403,
           [("error", JsonVal.str "feature_access_denied"),
            ("message", JsonVal.str elidedMessage),
            ("feature", JsonVal.str feature),
            ("current_tier", JsonVal.str user.subscription_tier),
            ("upgrade_required", JsonVal.bool true)]⟩) := by
  refine ⟨?_, ?_, ?_⟩
  · simp only [check_request_limit]
    rw [if_neg h1, if_neg h2]
  · simp only [get_request_limit_info]
    rw [if_neg h1, if_neg h2]
  · intro hf
    simp only [check_feature_access]
    rw [if_neg h1, if_pos hf]

/-- Witness for c10_unknown_tier_behaviour at a concrete "pro"-tier record. -/
theorem c10_witness :
    check_request_limit ⟨"pro", 7, 7, none⟩ sampleNow = none ∧
    get_request_limit_info ⟨"pro", 7, 7, none⟩ sampleNow =
      ⟨999999, 999999, "unlimited", none⟩ ∧
    check_feature_access ⟨"pro", 7, 7, none⟩ "lore" =
      some ⟨403,
        [("error", JsonVal.str "feature_access_denied"),
         ("message", JsonVal.str elidedMessage),
         ("feature", JsonVal.str "lore"),
         ("current_tier", JsonVal.str "pro"),
         ("upgrade_required", JsonVal.bool true)]⟩ := by
  have h := c10_unknown_tier_behaviour ⟨"pro", 7, 7, none⟩ sampleNow "lore"
    (by decide) (by decide)
  exact ⟨h.1, h.2.1, h.2.2 (by decide)⟩

/-- C1: the admission gate is all-or-nothing. If check_feature_access or
check_request_limit raises, the gate propagates exactly that error and
produces no updated record (the usage counters are untouched); if both
pass, it returns precisely the record produced by the (spec-modelled)
increment: lifetime count + 1, and for the community tier a monthly count
reset to 1 with reset date = now when the 30-day eligibility holds, a
monthly count + 1 with the reset date untouched when it does not, and a
null reset date initialized to now on the first increment. Every outcome
is one of these two, so no partially admitted state is reachable. -/
theorem c1_admission_all_or_nothing (user : User) (feature : String) (now rd : Datetime) :
    (∀ e, check_feature_access user feature = some e →
       check_feature_access_and_limits user feature now = Except.error e) ∧
    (∀ e, check_feature_access user feature = none →
       check_request_limit user now = some e →
       check_feature_access_and_limits user feature now = Except.error e) ∧
    (check_feature_access user feature = none →
       check_request_limit user now = none →
       check_feature_access_and_limits user feature now =
         Except.ok (increment_user_requests user now)) ∧
    (check_feature_access_and_limits user feature now =
        Except.ok (increment_user_requests user now) ∨
     ∃ e, check_feature_access_and_limits user feature now = Except.error e) ∧
    (increment_user_requests user now).total_requests = user.total_requests + 1 ∧
    (user.subscription_tier = "community" →
       (user.request_count_reset_date = none →
          (increment_user_requests user now).monthly_requests =
            user.monthly_requests + 1 ∧
          (increment_user_requests user now).request_count_reset_date = some now) ∧
       (user.request_count_reset_date = some rd → 30 ≤ daysBetween now rd →
          (increment_user_requests user now).monthly_requests = 1 ∧
          (increment_user_requests user now).request_count_reset_date = some now) ∧
       (user.request_count_reset_date = some rd → daysBetween now rd < 30 →
          (increment_user_requests user now).monthly_requests =
            user.monthly_requests + 1 ∧
          (increment_user_requests user now).request_count_reset_date = some rd)) := by
  refine ⟨?_, ?_, ?_, ?_, ?_, ?_⟩
  · intro e he
    simp only [check_feature_access_and_limits, he]
  · intro e hn he
    simp only [check_feature_access_and_limits, hn, he]
  · intro hn1 hn2
    simp only [check_feature_access_and_limits, hn1, hn2]
  · cases h1 : check_feature_access user feature with
    | none =>
      cases h2 : check_request_limit user now with
      | none =>
        left
        simp only [check_feature_access_and_limits, h1, h2]
      | some e2 =>
        right
        exact ⟨e2, by simp only [check_feature_access_and_limits, h1, h2]⟩
    | some e =>
      right
      exact ⟨e, by simp only [check_feature_access_and_limits, h1]⟩
  · simp only [increment_user_requests]
    split
    · split
      · rfl
      · split <;> rfl
    · rfl
  · intro hcom
    refine ⟨?_, ?_, ?_⟩
    · intro hnone
      constructor <;> simp [increment_user_requests, hcom, hnone]
    · intro hr hge
      constructor <;> simp [increment_user_requests, hcom, hr, hge]
    · intro hr hlt
      have hnge : ¬ (daysBetween now rd ≥ 30) := not_le.mpr hlt
      constructor <;> simp [increment_user_requests, hcom, hr, hnge]

/-- Witness for c1_admission_all_or_nothing: a community record with no
reset date, admitted through the gate, comes back with lifetime count 8,
monthly count 1 and the reset date initialized to now. -/
theorem c1_witness :
    check_feature_access_and_limits ⟨"community", 7, 0, none⟩ "chat" sampleNow =
      Except.ok ⟨"community", 8, 1, some sampleNow⟩ := by
  have h := (c1_admission_all_or_nothing ⟨"community", 7, 0, none⟩ "chat"
    sampleNow sampleNow).2.2.1 (by decide) (by decide)
  exact h.trans (congrArg Except.ok (by decide))

/-- C6: when the token header carries no key identifier, or a key identifier
matching no key of the current key set, verify_token fails with the 401
invalid_header error, and the signature/audience/issuer verification oracle
is never consulted: the outcome is the same for every decode oracle. -/
theorem c6_unknown_key_rejected {α : Type} (h : TokenHeader) (jwks : Jwks)
    (decode decode2 : RsaKey → DecodeOutcome α) :
    (h.kid = none →
       verify_token (some h) jwks decode =
         Except.error ⟨"invalid_header", "Authorization malformed: missing kid", 401⟩) ∧
    (∀ s, h.kid = some s → (∀ k ∈ jwks.keys, k.kid ≠ s) →
       verify_token (some h) jwks decode =
         Except.error ⟨"invalid_header", "Unable to find appropriate key", 401⟩) ∧
    ((h.kid = none ∨ ∃ s, h.kid = some s ∧ ∀ k ∈ jwks.keys, k.kid ≠ s) →
       verify_token (some h) jwks decode = verify_token (some h) jwks decode2) := by
  have key : ∀ dc : RsaKey → DecodeOutcome α,
      (h.kid = none →
        verify_token (some h) jwks dc =
          Except.error ⟨"invalid_header", "Authorization malformed: missing kid", 401⟩) ∧
      (∀ s, h.kid = some s → (∀ k ∈ jwks.keys, k.kid ≠ s) →
        verify_token (some h) jwks dc =
          Except.error ⟨"invalid_header", "Unable to find appropriate key", 401⟩) := by
    intro dc
    constructor
    · intro hk
      simp only [verify_token, get_rsa_key, hk]
    · intro s hk hnone
      have hfind : jwks.keys.find? (fun k => k.kid == s) = none := by
        rw [List.find?_eq_none]
        intro k hkmem
        simpa using hnone k hkmem
      simp only [verify_token, get_rsa_key, hk, hfind]
  refine ⟨(key decode).1, (key decode).2, ?_⟩
  rintro (hk | ⟨s, hk, hnone⟩)
  · rw [(key decode).1 hk, (key decode2).1 hk]
  · rw [(key decode).2 s hk hnone, (key decode2).2 s hk hnone]

/-- Witness for c6_unknown_key_rejected: a header naming kid "a" against a
key set holding only kid "b" is rejected with invalid_header, for a decode
oracle that would otherwise accept. -/
theorem c6_witness :
    verify_token (α := Nat) (some ⟨some "a"⟩) ⟨[⟨"b", "RSA", "sig", "nn", "ee"⟩]⟩
        (fun _ => DecodeOutcome.ok 0) =
      Except.error ⟨"invalid_header", "Unable to find appropriate key", 401⟩ := by
  exact (c6_unknown_key_rejected ⟨some "a"⟩ ⟨[⟨"b", "RSA", "sig", "nn", "ee"⟩]⟩
    (fun _ => DecodeOutcome.ok 0) (fun _ => DecodeOutcome.ok 0)).2.1 "a" rfl (by decide)

/-- C7: the key-set cache invariant. A cached document is served, with no
fetch consulted, exactly while now is before the cache expiry; once the
expiry has passed (or nothing is cached yet) the document is refetched, a
successful refetch being cached with expiry exactly 3600 seconds after the
fetch time, and a failed fetch raising 503 ServiceUnavailable from the one
attempt made (no internal retry), leaving the cache state exactly as it
was — no fresh cache. -/
theorem c7_keyset_cache_invariant (st : JwksCache) (now : Int) (fetched : Option Jwks) :
    (∀ c, st.jwks_cache = some c → now < st.cache_expiry →
       get_jwks st now fetched = (Except.ok c, st) ∧
       (∀ f2, get_jwks st now fetched = get_jwks st now f2)) ∧
    ((st.jwks_cache = none ∨ st.cache_expiry ≤ now) →
       (∀ j, fetched = some j →
          get_jwks st now fetched = (Except.ok j, ⟨some j, now + 3600⟩)) ∧
       (fetched = none →
          get_jwks st now fetched =
            (Except.error ⟨503, "Unable to fetch JWKS"⟩, st))) := by
  constructor
  · intro c hc hlt
    constructor
    · simp only [get_jwks, hc]
      rw [if_pos hlt]
    · intro f2
      simp only [get_jwks, hc]
      rw [if_pos hlt, if_pos hlt]
  · intro hmiss
    have hfetch : ∀ f : Option Jwks, get_jwks st now f = get_jwks_fetch st now f := by
      intro f
      rcases hmiss with hn | hexp
      · simp only [get_jwks, hn]
      · cases hc : st.jwks_cache with
        | none => simp only [get_jwks, hc]
        | some c =>
          simp only [get_jwks, hc]
          rw [if_neg (not_lt.mpr hexp)]
    constructor
    · intro j hj
      rw [hfetch, hj]
      rfl
    · intro hj
      rw [hfetch, hj]
      rfl

/-- Witness for c7_keyset_cache_invariant: with a cached document and the
clock before the expiry, the cached document is served unchanged. -/
theorem c7_witness :
    get_jwks ⟨some ⟨[⟨"b", "RSA", "sig", "nn", "ee"⟩]⟩, 100⟩ 50 none =
      (Except.ok ⟨[⟨"b", "RSA", "sig", "nn", "ee"⟩]⟩,
       ⟨some ⟨[⟨"b", "RSA", "sig", "nn", "ee"⟩]⟩, 100⟩) := by
  exact ((c7_keyset_cache_invariant ⟨some ⟨[⟨"b", "RSA", "sig", "nn", "ee"⟩]⟩, 100⟩
    50 none).1 ⟨[⟨"b", "RSA", "sig", "nn", "ee"⟩]⟩ rfl (by decide)).1
